import Mathlib

/-!
# Verification of `hummingbird/convert.py`

A shallow embedding of the three conversion entry points of the repository
(`convert_sklearn`, `convert_lightgbm`, `convert_xgboost`) together with the
collaborator contracts they rely on (`torch_installed`, `lightgbm_installed`,
`xgboost_installed`, `parse_sklearn_api_model`, `convert_topology`).

Python objects are mutable and passed by reference, so the embedding carries
an explicit object store for model objects: `deepcopy` allocates a fresh copy
at a fresh address, and the parser may rewrite the object at the address it is
given.  Python dicts (`extra_config`) are modelled as association lists; each
call returns the contents of the caller's `extra_config` object after the call,
which models the in-place mutation `extra_config["n_features"] = ...` performs.
-/

/-- A source model object.  `features_count = some n` models
`"_features_count" in dir(model)` being true with `model._features_count = n`;
`attrs` models the remaining observable attributes of the object, opaque to
the conversion entry points. -/
structure Model where
  features_count : Option Nat
  attrs : List (String × Nat)
deriving DecidableEq, Repr, Inhabited

/-- A Python value passed as `test_input`: `None`, a numpy ndarray with the
given shape, or any other object (identified by an opaque tag). -/
inductive NpValue where
  | none
  | ndarray (shape : List Nat)
  | other (tag : Nat)
deriving DecidableEq, Repr

/-- `type(test_input) is np.ndarray and len(test_input.shape) == 2`. -/
def NpValue.is2dNdarray : NpValue → Bool
  | .ndarray shape => shape.length == 2
  | _ => false

/-- `test_input.shape[1]` (defined only when the value is a 2-d ndarray). -/
def NpValue.dim1 : NpValue → Nat
  | .ndarray shape => shape.getD 1 0
  | _ => 0

/-- The `extra_config` dict: an association list of option names to values,
in insertion order, as a Python dict iterates. -/
abbrev ExtraConfig := List (String × Nat)

/-- Python dict assignment `d[k] = v`: overwrite in place if the key exists
(keeping its position), otherwise append at the end. -/
def dictSet (d : ExtraConfig) (k : String) (v : Nat) : ExtraConfig :=
  match d with
  | [] => [(k, v)]
  | (a, b) :: rest => if a = k then (a, v) :: rest else (a, b) :: dictSet rest k v

/-- Python dict lookup `d.get(k)`. -/
def dictGet (d : ExtraConfig) (k : String) : Option Nat :=
  d.lookup k

/-- An address of a model object in the store. -/
abbrev Addr := Nat

/-- The heap of model objects.  Addresses are indices; `alloc` appends. -/
structure Store where
  objs : List Model
deriving DecidableEq, Repr

/-- Read the object at an address. -/
def Store.get (s : Store) (a : Addr) : Model :=
  s.objs.getD a default

/-- Allocate a fresh object, returning the new store and the fresh address. -/
def Store.alloc (s : Store) (m : Model) : Store × Addr :=
  (⟨s.objs ++ [m]⟩, s.objs.length)

/-- Overwrite the object at an address. -/
def Store.set (s : Store) (a : Addr) (m : Model) : Store :=
  ⟨s.objs.set a m⟩

/-- The Topology intermediate representation is opaque to the entry points;
only the parser builds it and only the compiler consumes it. -/
abbrev Topology := Nat

/-- The lowered tensor program is opaque to the entry points. -/
abbrev HBModel := Nat

/-- A device identifier (`device=None` by default). -/
abbrev Device := Option Nat

/-- The error classes the entry points can fail with, named after the spec's
error taxonomy: the availability `assert`s surface as the spec's
`EnvironmentError`, the two `raise RuntimeError`s of feature-count inference
as the spec's `FeatureCountInferenceError`.  Each carries the source's
message. -/
inductive ConvError where
  | EnvironmentError (msg : String)
  | FeatureCountInferenceError (msg : String)
deriving DecidableEq, Repr

/-- The collaborators the entry points consult.  `torch_installed`,
`lightgbm_installed` and `xgboost_installed` are the availability checks from
`hummingbird.utils`.

Modelled from the spec: `parse_sklearn_api_model` (the Parser) and
`convert_topology` (the Topology Compiler) are code of this repository not
present under `src/`; following the spec they are arbitrary functions — the
Parser turns the model object it is handed into a Topology and may freely
rewrite that object ("parsing-time optimizations are allowed to rewrite the
private copy freely"), and the Compiler turns a Topology, a device and an
ExtraConfig into a tensor program. -/
structure Env where
  torch_installed : Bool
  lightgbm_installed : Bool
  xgboost_installed : Bool
  parseFun : Model → Topology × Model
  compileFun : Topology → Device → ExtraConfig → HBModel

/-- `parse_sklearn_api_model(model)`: reads the object at the given address,
produces the Topology, and writes back the (possibly rewritten) object. -/
def parse_sklearn_api_model (env : Env) (s : Store) (a : Addr) : Topology × Store :=
  let r := env.parseFun (s.get a)
  (r.1, s.set a r.2)

/-- What a conversion call leaves behind: the returned tensor program or the
error raised, the heap of model objects after the call, and the contents of
the caller's `extra_config` object after the call. -/
structure CallResult where
  result : Except ConvError HBModel
  store : Store
  extra_config : ExtraConfig
deriving Repr

/-- Embedding of `convert_sklearn(model, test_input=None, device=None,
extra_config={})` (src/hummingbird/convert.py lines 18-43):
`assert torch_installed()`, then `model = deepcopy(model)` (a fresh private
copy; the local name now refers to it), then
`topology = parse_sklearn_api_model(model)` on the copy, then
`return convert_topology(topology, device, extra_config)`.
`test_input` is accepted but never read. -/
def convert_sklearn (env : Env) (s : Store) (model : Addr) (test_input : NpValue)
    (device : Device) (extra_config : ExtraConfig) : CallResult :=
  if env.torch_installed then
    let copy := s.alloc (s.get model)
    let parsed := parse_sklearn_api_model env copy.1 copy.2
    { result := .ok (env.compileFun parsed.1 device extra_config)
      store := parsed.2
      extra_config := extra_config }
  else
    { result := .error (.EnvironmentError "To use Hummingbird you need to instal torch.")
      store := s
      extra_config := extra_config }

/-- Embedding of `convert_lightgbm(model, test_input=None, device=None,
extra_config={})` (lines 46-58): `assert lightgbm_installed()`, then
`return convert_sklearn(model, test_input, device, extra_config)`. -/
def convert_lightgbm (env : Env) (s : Store) (model : Addr) (test_input : NpValue)
    (device : Device) (extra_config : ExtraConfig) : CallResult :=
  if env.lightgbm_installed then
    convert_sklearn env s model test_input device extra_config
  else
    { result := .error
        (.EnvironmentError "To convert LightGBM models you need to instal LightGBM.")
      store := s
      extra_config := extra_config }

/-- The message of the `RuntimeError` raised when `test_input` is present
but not a 2-d ndarray (whitespace of the Python line continuation
normalized). -/
def xgbMsgNotNdarray : String :=
  "XGBoost converter is not able to infer the number of input features. Apparently test_input is not an ndarray. Please fill an issue on https://github.com/microsoft/hummingbird/"

/-- The message of the `RuntimeError` raised when `test_input` is absent. -/
def xgbMsgNoTestInput : String :=
  "XGBoost converter is not able to infer the number of input features. Please pass some test_input to the converter."

/-- Embedding of `convert_xgboost(model, test_input, device=None,
extra_config={})` (lines 61-90): `assert xgboost_installed()`; if
`"_features_count" in dir(model)` then
`extra_config["n_features"] = model._features_count`; elif
`test_input is not None` then if it is a 2-d ndarray,
`extra_config["n_features"] = test_input.shape[1]`, else
`raise RuntimeError(...)`; else `raise RuntimeError(...)`; finally
`return convert_sklearn(model, test_input, device, extra_config)`. -/
def convert_xgboost (env : Env) (s : Store) (model : Addr) (test_input : NpValue)
    (device : Device) (extra_config : ExtraConfig) : CallResult :=
  if env.xgboost_installed then
    match (s.get model).features_count with
    | some n =>
        convert_sklearn env s model test_input device (dictSet extra_config "n_features" n)
    | none =>
        if test_input ≠ NpValue.none then
          if test_input.is2dNdarray then
            convert_sklearn env s model test_input device
              (dictSet extra_config "n_features" test_input.dim1)
          else
            { result := .error (.FeatureCountInferenceError xgbMsgNotNdarray)
              store := s
              extra_config := extra_config }
        else
          { result := .error (.FeatureCountInferenceError xgbMsgNoTestInput)
            store := s
            extra_config := extra_config }
  else
    { result := .error (.EnvironmentError "To convert XGboost models you need to instal XGBoost.")
      store := s
      extra_config := extra_config }

/-- The module-level mutable state that persists across conversion calls: the
heap of model objects and the three `extra_config={}` default dict objects
(Python evaluates a mutable default argument once, at function definition
time, so writes to a default dict persist across calls that rely on it). -/
structure PyState where
  store : Store
  sk_default : ExtraConfig
  lgb_default : ExtraConfig
  xgb_default : ExtraConfig
deriving Repr

/-- The module state at process start: a heap of model objects and three
empty default dicts. -/
def PyState.init (s : Store) : PyState :=
  ⟨s, [], [], []⟩

/-- One conversion call: entry point, model address, test input, device, and
the caller's `extra_config` (`none` means the argument was omitted, so the
entry point's shared default dict object is used). -/
inductive Call where
  | sk (model : Addr) (test_input : NpValue) (device : Device) (cfg : Option ExtraConfig)
  | lgb (model : Addr) (test_input : NpValue) (device : Device) (cfg : Option ExtraConfig)
  | xgb (model : Addr) (test_input : NpValue) (device : Device) (cfg : Option ExtraConfig)
deriving Repr

/-- The address of the model object a call passes. -/
def Call.modelAddr : Call → Addr
  | .sk a _ _ _ => a
  | .lgb a _ _ _ => a
  | .xgb a _ _ _ => a

/-- Execute one conversion call against the module state: run the entry
point on the caller's dict or on the shared default dict, and write the
dict's final contents back to the default object when the default was used. -/
def step (env : Env) (st : PyState) : Call → Except ConvError HBModel × PyState
  | .sk a ti d cfg =>
    let r := convert_sklearn env st.store a ti d (cfg.getD st.sk_default)
    let sd := if cfg.isNone then r.extra_config else st.sk_default
    (r.result, ⟨r.store, sd, st.lgb_default, st.xgb_default⟩)
  | .lgb a ti d cfg =>
    let r := convert_lightgbm env st.store a ti d (cfg.getD st.lgb_default)
    let ld := if cfg.isNone then r.extra_config else st.lgb_default
    (r.result, ⟨r.store, st.sk_default, ld, st.xgb_default⟩)
  | .xgb a ti d cfg =>
    let r := convert_xgboost env st.store a ti d (cfg.getD st.xgb_default)
    let xd := if cfg.isNone then r.extra_config else st.xgb_default
    (r.result, ⟨r.store, st.sk_default, st.lgb_default, xd⟩)

/-- Run a sequence of conversion calls, threading the module state. -/
def runCalls (env : Env) (st : PyState) : List Call → PyState
  | [] => st
  | c :: cs => runCalls env (step env st c).2 cs

/-- The values the shared default dict of `convert_xgboost` can hold: empty
(its initial value) or a single inferred `"n_features"` entry. -/
def XgbDefaultOk (d : ExtraConfig) : Prop :=
  d = [] ∨ ∃ v, d = [("n_features", v)]

/-- Reading back the key just assigned yields the assigned value. -/
theorem dictGet_dictSet_self (d : ExtraConfig) (k : String) (v : Nat) :
    dictGet (dictSet d k v) k = some v := by
  induction d with
  | nil => simp [dictSet, dictGet, List.lookup]
  | cons p rest ih =>
    obtain ⟨a, b⟩ := p
    by_cases hak : a = k
    · subst hak
      simp [dictSet, dictGet, List.lookup]
    · have hne : (k == a) = false := beq_eq_false_iff_ne.mpr (fun h => hak h.symm)
      simp only [dictSet, if_neg hak, dictGet, List.lookup, hne]
      exact ih

/-- A dict assignment leaves every other key's value unchanged. -/
theorem dictGet_dictSet_ne (d : ExtraConfig) (k q : String) (v : Nat)
    (hq : q ≠ k) :
    dictGet (dictSet d k v) q = dictGet d q := by
  induction d with
  | nil =>
    simp [dictSet, dictGet, List.lookup, beq_eq_false_iff_ne.mpr hq]
  | cons p rest ih =>
    obtain ⟨a, b⟩ := p
    by_cases hak : a = k
    · subst hak
      have hne : (q == a) = false := beq_eq_false_iff_ne.mpr hq
      simp only [dictSet, if_pos rfl, dictGet, List.lookup, hne]
    · by_cases hqa : q = a
      · subst hqa
        simp only [dictSet, if_neg hak, dictGet, List.lookup, beq_self_eq_true]
      · have hne : (q == a) = false := beq_eq_false_iff_ne.mpr hqa
        simp only [dictSet, if_neg hak, dictGet, List.lookup, hne]
        exact ih

/-- On either value of the shared default dict, assigning `"n_features"`
produces the singleton dict. -/
theorem dictSet_n_features_of_ok (d : ExtraConfig) (v : Nat) (h : XgbDefaultOk d) :
    dictSet d "n_features" v = [("n_features", v)] := by
  rcases h with h | ⟨w, h⟩ <;> subst h <;> simp [dictSet, List.lookup]

/-- The freshly allocated address holds the allocated object. -/
theorem Store.get_alloc_fresh (s : Store) (m : Model) :
    (s.alloc m).1.get (s.alloc m).2 = m := by
  simp [Store.alloc, Store.get, List.getD_eq_getElem?_getD]

/-- Allocation does not change the object at any existing address. -/
theorem Store.get_alloc_lt (s : Store) (m : Model) (a : Addr)
    (h : a < s.objs.length) :
    (s.alloc m).1.get a = s.get a := by
  simp [Store.alloc, Store.get, List.getD_eq_getElem?_getD, List.getElem?_append_left h]

/-- Overwriting one address does not change the object at another one. -/
theorem Store.get_set_ne (s : Store) (b a : Addr) (m : Model) (h : b ≠ a) :
    (s.set b m).get a = s.get a := by
  simp [Store.set, Store.get, List.getD_eq_getElem?_getD, List.getElem?_set_ne h]

/-- `convert_sklearn` hands the compiler the caller's `extra_config`
verbatim and leaves the dict's contents unchanged. -/
theorem convert_sklearn_extra_config (env : Env) (s : Store) (a : Addr)
    (ti : NpValue) (d : Device) (cfg : ExtraConfig) :
    (convert_sklearn env s a ti d cfg).extra_config = cfg := by
  by_cases h : env.torch_installed <;> simp [convert_sklearn, h]

/-- The value `convert_sklearn` returns, as a function of the model object's
value, the device and the config: the parser runs on a fresh copy of the
model at the given address, and the compiler receives its topology. -/
theorem convert_sklearn_result (env : Env) (s : Store) (a : Addr)
    (ti : NpValue) (d : Device) (cfg : ExtraConfig) :
    (convert_sklearn env s a ti d cfg).result =
      if env.torch_installed then
        Except.ok (env.compileFun (env.parseFun (s.get a)).1 d cfg)
      else
        Except.error
          (ConvError.EnvironmentError "To use Hummingbird you need to instal torch.") := by
  by_cases h : env.torch_installed <;>
    simp [convert_sklearn, parse_sklearn_api_model, h, Store.get_alloc_fresh]

/-- `convert_sklearn` never changes an existing model object: parsing runs
on the private deep copy allocated at a fresh address. -/
theorem convert_sklearn_store_get (env : Env) (s : Store) (model : Addr)
    (ti : NpValue) (d : Device) (cfg : ExtraConfig) (a : Addr)
    (h : a < s.objs.length) :
    (convert_sklearn env s model ti d cfg).store.get a = s.get a := by
  by_cases ht : env.torch_installed
  · have hne : (s.alloc (s.get model)).2 ≠ a := by
      show s.objs.length ≠ a
      exact Nat.ne_of_gt h
    simp only [convert_sklearn, parse_sklearn_api_model, if_pos ht]
    rw [Store.get_set_ne _ _ _ _ hne, Store.get_alloc_lt _ _ _ h]
  · simp [convert_sklearn, ht]

/-- `convert_sklearn` only grows the heap (the deep copy). -/
theorem convert_sklearn_store_length (env : Env) (s : Store) (model : Addr)
    (ti : NpValue) (d : Device) (cfg : ExtraConfig) :
    s.objs.length ≤ (convert_sklearn env s model ti d cfg).store.objs.length := by
  by_cases ht : env.torch_installed <;>
    simp [convert_sklearn, parse_sklearn_api_model, ht, Store.set, Store.alloc]

/-- `convert_lightgbm` leaves the caller's `extra_config` unchanged. -/
theorem convert_lightgbm_extra_config (env : Env) (s : Store) (a : Addr)
    (ti : NpValue) (d : Device) (cfg : ExtraConfig) :
    (convert_lightgbm env s a ti d cfg).extra_config = cfg := by
  by_cases h : env.lightgbm_installed <;>
    simp [convert_lightgbm, h, convert_sklearn_extra_config]

/-- `convert_lightgbm` never changes an existing model object. -/
theorem convert_lightgbm_store_get (env : Env) (s : Store) (model : Addr)
    (ti : NpValue) (d : Device) (cfg : ExtraConfig) (a : Addr)
    (h : a < s.objs.length) :
    (convert_lightgbm env s model ti d cfg).store.get a = s.get a := by
  by_cases hl : env.lightgbm_installed <;>
    simp [convert_lightgbm, hl, convert_sklearn_store_get _ _ _ _ _ _ _ h]

/-- `convert_lightgbm` only grows the heap. -/
theorem convert_lightgbm_store_length (env : Env) (s : Store) (model : Addr)
    (ti : NpValue) (d : Device) (cfg : ExtraConfig) :
    s.objs.length ≤ (convert_lightgbm env s model ti d cfg).store.objs.length := by
  by_cases hl : env.lightgbm_installed <;>
    simp [convert_lightgbm, hl, convert_sklearn_store_length]

/-- `convert_xgboost` never changes an existing model object. -/
theorem convert_xgboost_store_get (env : Env) (s : Store) (model : Addr)
    (ti : NpValue) (d : Device) (cfg : ExtraConfig) (a : Addr)
    (h : a < s.objs.length) :
    (convert_xgboost env s model ti d cfg).store.get a = s.get a := by
  by_cases hx : env.xgboost_installed
  · cases hf : (s.get model).features_count with
    | some n => simp [convert_xgboost, hx, hf, convert_sklearn_store_get _ _ _ _ _ _ _ h]
    | none =>
      by_cases hti : ti = NpValue.none
      · simp [convert_xgboost, hx, hf, hti]
      · by_cases h2 : ti.is2dNdarray
        · simp [convert_xgboost, hx, hf, hti, h2, convert_sklearn_store_get _ _ _ _ _ _ _ h]
        · simp [convert_xgboost, hx, hf, hti, h2]
  · simp [convert_xgboost, hx]

/-- `convert_xgboost` only grows the heap. -/
theorem convert_xgboost_store_length (env : Env) (s : Store) (model : Addr)
    (ti : NpValue) (d : Device) (cfg : ExtraConfig) :
    s.objs.length ≤ (convert_xgboost env s model ti d cfg).store.objs.length := by
  by_cases hx : env.xgboost_installed
  · cases hf : (s.get model).features_count with
    | some n => simp [convert_xgboost, hx, hf, convert_sklearn_store_length]
    | none =>
      by_cases hti : ti = NpValue.none
      · simp [convert_xgboost, hx, hf, hti]
      · by_cases h2 : ti.is2dNdarray
        · simp [convert_xgboost, hx, hf, hti, h2, convert_sklearn_store_length]
        · simp [convert_xgboost, hx, hf, hti, h2]
  · simp [convert_xgboost, hx]

/-- The caller's `extra_config` after a `convert_xgboost` call: unchanged,
or with exactly the `"n_features"` assignment performed on it. -/
theorem convert_xgboost_extra_config_cases (env : Env) (s : Store) (model : Addr)
    (ti : NpValue) (d : Device) (cfg : ExtraConfig) :
    (convert_xgboost env s model ti d cfg).extra_config = cfg ∨
      ∃ v, (convert_xgboost env s model ti d cfg).extra_config =
        dictSet cfg "n_features" v := by
  by_cases hx : env.xgboost_installed
  · cases hf : (s.get model).features_count with
    | some n =>
      right
      exact ⟨n, by simp [convert_xgboost, hx, hf, convert_sklearn_extra_config]⟩
    | none =>
      by_cases hti : ti = NpValue.none
      · left
        simp [convert_xgboost, hx, hf, hti]
      · by_cases h2 : ti.is2dNdarray
        · right
          exact ⟨ti.dim1, by simp [convert_xgboost, hx, hf, hti, h2,
            convert_sklearn_extra_config]⟩
        · left
          simp [convert_xgboost, hx, hf, hti, h2]
  · left
    simp [convert_xgboost, hx]

/-- The value `convert_sklearn` returns depends only on the model object's
value, the device and the config — not on the heap layout, and not on
`test_input`. -/
theorem convert_sklearn_result_congr (env : Env) (s1 s2 : Store) (a1 a2 : Addr)
    (ti1 ti2 : NpValue) (d : Device) (cfg : ExtraConfig)
    (hm : s1.get a1 = s2.get a2) :
    (convert_sklearn env s1 a1 ti1 d cfg).result =
      (convert_sklearn env s2 a2 ti2 d cfg).result := by
  rw [convert_sklearn_result, convert_sklearn_result, hm]

/-- The value `convert_lightgbm` returns depends only on the model object's
value, the device and the config. -/
theorem convert_lightgbm_result_congr (env : Env) (s1 s2 : Store) (a1 a2 : Addr)
    (ti1 ti2 : NpValue) (d : Device) (cfg : ExtraConfig)
    (hm : s1.get a1 = s2.get a2) :
    (convert_lightgbm env s1 a1 ti1 d cfg).result =
      (convert_lightgbm env s2 a2 ti2 d cfg).result := by
  by_cases hl : env.lightgbm_installed
  · simp only [convert_lightgbm, if_pos hl]
    exact convert_sklearn_result_congr env s1 s2 a1 a2 ti1 ti2 d cfg hm
  · simp [convert_lightgbm, hl]

/-- The value `convert_xgboost` returns depends only on the model object's
value, the test input, the device, and the config up to the `"n_features"`
assignment it performs. -/
theorem convert_xgboost_result_congr (env : Env) (s1 s2 : Store) (a1 a2 : Addr)
    (ti : NpValue) (d : Device) (cfg1 cfg2 : ExtraConfig)
    (hm : s1.get a1 = s2.get a2)
    (hcfg : ∀ v, dictSet cfg1 "n_features" v = dictSet cfg2 "n_features" v) :
    (convert_xgboost env s1 a1 ti d cfg1).result =
      (convert_xgboost env s2 a2 ti d cfg2).result := by
  by_cases hx : env.xgboost_installed
  · cases hf : (s1.get a1).features_count with
    | some n =>
      have hf2 : (s2.get a2).features_count = some n := by rw [← hm]; exact hf
      simp only [convert_xgboost, if_pos hx, hf, hf2]
      rw [hcfg n]
      exact convert_sklearn_result_congr env s1 s2 a1 a2 ti ti d _ hm
    | none =>
      have hf2 : (s2.get a2).features_count = none := by rw [← hm]; exact hf
      simp only [convert_xgboost, if_pos hx, hf, hf2]
      by_cases hti : ti = NpValue.none
      · simp [hti]
      · by_cases h2 : ti.is2dNdarray
        · simp only [ne_eq, hti, not_false_iff, if_true, h2]
          rw [hcfg ti.dim1]
          exact convert_sklearn_result_congr env s1 s2 a1 a2 ti ti d _ hm
        · simp [hti, h2]
  · simp [convert_xgboost, hx]

/-- The module states reachable from `PyState.init s0`: existing model
objects keep their values, the heap only grows, the sklearn and lightgbm
default dicts stay empty, and the xgboost default dict is empty or holds a
single inferred entry. -/
structure Reach (s0 : Store) (st : PyState) : Prop where
  len : s0.objs.length ≤ st.store.objs.length
  get_eq : ∀ a, a < s0.objs.length → st.store.get a = s0.get a
  sk_eq : st.sk_default = []
  lgb_eq : st.lgb_default = []
  xgb_ok : XgbDefaultOk st.xgb_default

/-- The initial module state is reachable. -/
theorem reach_init (s0 : Store) : Reach s0 (PyState.init s0) :=
  ⟨le_refl _, fun _ _ => rfl, rfl, rfl, Or.inl rfl⟩

/-- One conversion call preserves the reachability invariant. -/
theorem reach_step (env : Env) (s0 : Store) (st : PyState) (c : Call)
    (h : Reach s0 st) : Reach s0 (step env st c).2 := by
  cases c with
  | sk a ti d cfg =>
    refine ⟨le_trans h.len (convert_sklearn_store_length _ _ _ _ _ _), ?_, ?_,
      h.lgb_eq, h.xgb_ok⟩
    · intro b hb
      have hb2 : b < st.store.objs.length := lt_of_lt_of_le hb h.len
      show (convert_sklearn env st.store a ti d (cfg.getD st.sk_default)).store.get b =
        s0.get b
      rw [convert_sklearn_store_get _ _ _ _ _ _ _ hb2]
      exact h.get_eq b hb
    · show (if cfg.isNone then
          (convert_sklearn env st.store a ti d (cfg.getD st.sk_default)).extra_config
        else st.sk_default) = []
      rw [convert_sklearn_extra_config]
      cases cfg <;> simp [h.sk_eq]
  | lgb a ti d cfg =>
    refine ⟨le_trans h.len (convert_lightgbm_store_length _ _ _ _ _ _), ?_,
      h.sk_eq, ?_, h.xgb_ok⟩
    · intro b hb
      have hb2 : b < st.store.objs.length := lt_of_lt_of_le hb h.len
      show (convert_lightgbm env st.store a ti d (cfg.getD st.lgb_default)).store.get b =
        s0.get b
      rw [convert_lightgbm_store_get _ _ _ _ _ _ _ hb2]
      exact h.get_eq b hb
    · show (if cfg.isNone then
          (convert_lightgbm env st.store a ti d (cfg.getD st.lgb_default)).extra_config
        else st.lgb_default) = []
      rw [convert_lightgbm_extra_config]
      cases cfg <;> simp [h.lgb_eq]
  | xgb a ti d cfg =>
    refine ⟨le_trans h.len (convert_xgboost_store_length _ _ _ _ _ _), ?_,
      h.sk_eq, h.lgb_eq, ?_⟩
    · intro b hb
      have hb2 : b < st.store.objs.length := lt_of_lt_of_le hb h.len
      show (convert_xgboost env st.store a ti d (cfg.getD st.xgb_default)).store.get b =
        s0.get b
      rw [convert_xgboost_store_get _ _ _ _ _ _ _ hb2]
      exact h.get_eq b hb
    · show XgbDefaultOk (if cfg.isNone then
          (convert_xgboost env st.store a ti d (cfg.getD st.xgb_default)).extra_config
        else st.xgb_default)
      cases cfg with
      | some c => exact h.xgb_ok
      | none =>
        simp only [Option.isNone_none, if_true, Option.getD_none]
        rcases convert_xgboost_extra_config_cases env st.store a ti d st.xgb_default with
          hcase | ⟨v, hcase⟩
        · rw [hcase]
          exact h.xgb_ok
        · rw [hcase, dictSet_n_features_of_ok _ v h.xgb_ok]
          exact Or.inr ⟨v, rfl⟩

/-- Running any sequence of calls preserves the reachability invariant. -/
theorem reach_run (env : Env) (s0 : Store) (cs : List Call) (st : PyState)
    (h : Reach s0 st) : Reach s0 (runCalls env st cs) := by
  induction cs generalizing st with
  | nil => exact h
  | cons c rest ih => exact ih _ (reach_step env s0 st c h)

/-- From any reachable module state, a conversion call returns exactly what
it returns from the initial state. -/
theorem step_result_eq_of_reach (env : Env) (s0 : Store) (st : PyState)
    (h : Reach s0 st) (c : Call) (hc : c.modelAddr < s0.objs.length) :
    (step env st c).1 = (step env (PyState.init s0) c).1 := by
  cases c with
  | sk a ti d cfg =>
    show (convert_sklearn env st.store a ti d (cfg.getD st.sk_default)).result =
      (convert_sklearn env s0 a ti d (cfg.getD [])).result
    rw [h.sk_eq]
    exact convert_sklearn_result_congr env st.store s0 a a ti ti d _ (h.get_eq a hc)
  | lgb a ti d cfg =>
    show (convert_lightgbm env st.store a ti d (cfg.getD st.lgb_default)).result =
      (convert_lightgbm env s0 a ti d (cfg.getD [])).result
    rw [h.lgb_eq]
    exact convert_lightgbm_result_congr env st.store s0 a a ti ti d _ (h.get_eq a hc)
  | xgb a ti d cfg =>
    show (convert_xgboost env st.store a ti d (cfg.getD st.xgb_default)).result =
      (convert_xgboost env s0 a ti d (cfg.getD [])).result
    cases cfg with
    | some c =>
      exact convert_xgboost_result_congr env st.store s0 a a ti d c c
        (h.get_eq a hc) (fun _ => rfl)
    | none =>
      refine convert_xgboost_result_congr env st.store s0 a a ti d _ _
        (h.get_eq a hc) ?_
      intro v
      rw [Option.getD_none, Option.getD_none, dictSet_n_features_of_ok _ v h.xgb_ok,
        dictSet_n_features_of_ok _ v (Or.inl rfl)]

/-- Whether a conversion outcome returned a program (no exception). -/
def isOkResult : Except ConvError HBModel → Bool
  | .ok _ => true
  | .error _ => false

/-- Whether a conversion call failed with the spec's `EnvironmentError`. -/
def CallResult.failsWithEnvironmentError (r : CallResult) : Bool :=
  match r.result with
  | .error (.EnvironmentError _) => true
  | _ => false

/-- A concrete collaborator environment with every library installed; the
parser keeps the model unchanged and the compiler is a constant. -/
def envAll : Env :=
  ⟨true, true, true, fun m => (0, m), fun _ _ _ => 0⟩

/-- The same concrete collaborators with torch missing. -/
def envNoTorch : Env :=
  ⟨false, true, true, fun m => (0, m), fun _ _ _ => 0⟩

/-- A one-object heap holding a family-B tree-ensemble model: no
self-reported feature count. -/
def storeB : Store :=
  ⟨[⟨Option.none, [("payload", 1)]⟩]⟩

/-- A two-object heap: a family-B model at address 0 and a family-A model
self-reporting 3 features at address 1. -/
def storeW : Store :=
  ⟨[⟨Option.none, []⟩, ⟨some 3, []⟩]⟩

/-- C10: `convert_sklearn` never reads `test_input`: for any two test
inputs and otherwise identical arguments it produces the identical outcome
(same program, same heap, same config). -/
theorem C10_test_input_unused (env : Env) (s : Store) (a : Addr)
    (ti1 ti2 : NpValue) (d : Device) (cfg : ExtraConfig) :
    convert_sklearn env s a ti1 d cfg = convert_sklearn env s a ti2 d cfg := rfl

/-- C8: with the LightGBM library installed, `convert_lightgbm` returns
exactly the result of `convert_sklearn` on the same arguments: the entry
point performs only the availability check and forwards unchanged. -/
theorem C8_lightgbm_forwards (env : Env) (s : Store) (a : Addr)
    (ti : NpValue) (d : Device) (cfg : ExtraConfig)
    (hl : env.lightgbm_installed = true) :
    convert_lightgbm env s a ti d cfg = convert_sklearn env s a ti d cfg := by
  simp [convert_lightgbm, hl]

/-- Witness for C8 at a concrete input. -/
theorem C8_witness :
    convert_lightgbm envAll storeB 0 NpValue.none Option.none [] =
      convert_sklearn envAll storeB 0 NpValue.none Option.none [] :=
  C8_lightgbm_forwards envAll storeB 0 NpValue.none Option.none [] rfl

/-- C2: after any of the three conversion calls, whether it returns or
fails, the caller's original model object is observably unchanged: the
pipeline mutates only the private deep copy taken before parsing. -/
theorem C2_original_model_unchanged (env : Env) (s : Store) (a : Addr)
    (ti : NpValue) (d : Device) (cfg : ExtraConfig) (h : a < s.objs.length) :
    (convert_sklearn env s a ti d cfg).store.get a = s.get a ∧
      (convert_lightgbm env s a ti d cfg).store.get a = s.get a ∧
      (convert_xgboost env s a ti d cfg).store.get a = s.get a :=
  ⟨convert_sklearn_store_get env s a ti d cfg a h,
   convert_lightgbm_store_get env s a ti d cfg a h,
   convert_xgboost_store_get env s a ti d cfg a h⟩

/-- Witness for C2 at a concrete input. -/
theorem C2_witness :
    0 < storeB.objs.length ∧
      (convert_sklearn envAll storeB 0 NpValue.none Option.none []).store.get 0 =
        storeB.get 0 :=
  ⟨by decide,
   (C2_original_model_unchanged envAll storeB 0 NpValue.none Option.none []
     (by decide)).1⟩

/-- C3: for a family-B model (no self-reported feature count) and a 2-d
numeric `test_input` of shape (k, m), `convert_xgboost` performs
`extra_config["n_features"] = m`, the second dimension, on the caller's
config, and the stored feature count reads back as m. -/
theorem C3_n_features_from_test_input (env : Env) (s : Store) (a : Addr)
    (k m : Nat) (d : Device) (cfg : ExtraConfig)
    (hx : env.xgboost_installed = true)
    (hf : (s.get a).features_count = Option.none) :
    (convert_xgboost env s a (NpValue.ndarray [k, m]) d cfg).extra_config =
        dictSet cfg "n_features" m ∧
      dictGet (convert_xgboost env s a (NpValue.ndarray [k, m]) d cfg).extra_config
        "n_features" = some m := by
  have h1 : (convert_xgboost env s a (NpValue.ndarray [k, m]) d cfg).extra_config =
      dictSet cfg "n_features" m := by
    simp [convert_xgboost, hx, hf, NpValue.is2dNdarray, NpValue.dim1,
      convert_sklearn_extra_config]
  exact ⟨h1, by rw [h1]; exact dictGet_dictSet_self cfg "n_features" m⟩

/-- Witness for C3 at a concrete input of shape (2, 7). -/
theorem C3_witness :
    dictGet (convert_xgboost envAll storeB 0 (NpValue.ndarray [2, 7]) Option.none
      []).extra_config "n_features" = some 7 :=
  (C3_n_features_from_test_input envAll storeB 0 2 7 Option.none [] rfl rfl).2

/-- C4: for a family-B model, if `test_input` is absent or is not a 2-d
ndarray, `convert_xgboost` fails with a `FeatureCountInferenceError` and no
conversion is performed: the heap and the caller's config are untouched. -/
theorem C4_inference_failure (env : Env) (s : Store) (a : Addr) (ti : NpValue)
    (d : Device) (cfg : ExtraConfig)
    (hx : env.xgboost_installed = true)
    (hf : (s.get a).features_count = Option.none)
    (hti : ti = NpValue.none ∨ ti.is2dNdarray = false) :
    (∃ msg, (convert_xgboost env s a ti d cfg).result =
        Except.error (ConvError.FeatureCountInferenceError msg)) ∧
      (convert_xgboost env s a ti d cfg).store = s ∧
      (convert_xgboost env s a ti d cfg).extra_config = cfg := by
  by_cases hn : ti = NpValue.none
  · subst hn
    exact ⟨⟨xgbMsgNoTestInput, by simp [convert_xgboost, hx, hf]⟩,
      by simp [convert_xgboost, hx, hf], by simp [convert_xgboost, hx, hf]⟩
  · have h2 : ti.is2dNdarray = false := by
      rcases hti with h | h
      · exact absurd h hn
      · exact h
    exact ⟨⟨xgbMsgNotNdarray, by simp [convert_xgboost, hx, hf, hn, h2]⟩,
      by simp [convert_xgboost, hx, hf, hn, h2],
      by simp [convert_xgboost, hx, hf, hn, h2]⟩

/-- Witness for C4 at a concrete input (a 1-d ndarray). -/
theorem C4_witness :
    (∃ msg, (convert_xgboost envAll storeB 0 (NpValue.ndarray [5]) Option.none
        []).result = Except.error (ConvError.FeatureCountInferenceError msg)) ∧
      (convert_xgboost envAll storeB 0 (NpValue.ndarray [5]) Option.none []).store =
        storeB ∧
      (convert_xgboost envAll storeB 0 (NpValue.ndarray [5])
        Option.none []).extra_config = [] :=
  C4_inference_failure envAll storeB 0 (NpValue.ndarray [5]) Option.none [] rfl rfl
    (Or.inr rfl)

/-- C5: for a family-A model that self-reports its feature count,
`convert_xgboost` stores the self-reported count under `"n_features"`, and
`test_input` plays no role: any two test inputs give identical outcomes. -/
theorem C5_self_reported_count (env : Env) (s : Store) (a : Addr) (n : Nat)
    (ti : NpValue) (d : Device) (cfg : ExtraConfig)
    (hx : env.xgboost_installed = true)
    (hf : (s.get a).features_count = some n) :
    dictGet (convert_xgboost env s a ti d cfg).extra_config "n_features" = some n ∧
      ∀ ti2, convert_xgboost env s a ti d cfg = convert_xgboost env s a ti2 d cfg := by
  constructor
  · have h1 : (convert_xgboost env s a ti d cfg).extra_config =
        dictSet cfg "n_features" n := by
      simp [convert_xgboost, hx, hf, convert_sklearn_extra_config]
    rw [h1]
    exact dictGet_dictSet_self cfg "n_features" n
  · intro ti2
    simp only [convert_xgboost, hx, if_true, hf]
    rfl

/-- Witness for C5 at a concrete input: the model at address 1 of `storeW`
self-reports 3 features, and the test input is irrelevant. -/
theorem C5_witness :
    dictGet (convert_xgboost envAll storeW 1 (NpValue.ndarray [4, 9]) Option.none
        []).extra_config "n_features" = some 3 ∧
      convert_xgboost envAll storeW 1 (NpValue.ndarray [4, 9]) Option.none [] =
        convert_xgboost envAll storeW 1 NpValue.none Option.none [] :=
  ⟨(C5_self_reported_count envAll storeW 1 3 (NpValue.ndarray [4, 9]) Option.none []
      rfl rfl).1,
   (C5_self_reported_count envAll storeW 1 3 (NpValue.ndarray [4, 9]) Option.none []
      rfl rfl).2 NpValue.none⟩

/-- C6 fails as stated: with torch absent, `convert_xgboost` on a family-B
model with no `test_input` raises the feature-count inference error, not an
`EnvironmentError` — its feature-count inference runs before the torch
availability check inside `convert_sklearn` is ever reached. -/
theorem C6_counterexample :
    envNoTorch.torch_installed = false ∧
      isOkResult (convert_xgboost envNoTorch storeB 0 NpValue.none Option.none
        []).result = false ∧
      (convert_xgboost envNoTorch storeB 0 NpValue.none
        Option.none []).failsWithEnvironmentError = false ∧
      (convert_xgboost envNoTorch storeB 0 NpValue.none Option.none []).result =
        Except.error (ConvError.FeatureCountInferenceError xgbMsgNoTestInput) :=
  ⟨rfl, rfl, rfl, rfl⟩

/-- C6 (amended): if torch is unavailable, every conversion entry point
fails before parsing begins — no program is returned and the heap is
untouched (no deep copy, no parser invocation).  `convert_sklearn` and
`convert_lightgbm` fail with an `EnvironmentError`; `convert_xgboost` fails
with an `EnvironmentError` whenever its feature-count inference succeeds,
and with a `FeatureCountInferenceError` when the inference itself fails. -/
theorem C6_no_parsing_without_torch (env : Env) (s : Store) (a : Addr)
    (ti : NpValue) (d : Device) (cfg : ExtraConfig)
    (ht : env.torch_installed = false) :
    ((convert_sklearn env s a ti d cfg).failsWithEnvironmentError = true ∧
      (convert_sklearn env s a ti d cfg).store = s) ∧
    ((convert_lightgbm env s a ti d cfg).failsWithEnvironmentError = true ∧
      (convert_lightgbm env s a ti d cfg).store = s) ∧
    (isOkResult (convert_xgboost env s a ti d cfg).result = false ∧
      (convert_xgboost env s a ti d cfg).store = s ∧
      ((s.get a).features_count ≠ Option.none ∨ ti.is2dNdarray = true →
        (convert_xgboost env s a ti d cfg).failsWithEnvironmentError = true)) := by
  have hsk : ∀ c : ExtraConfig,
      (convert_sklearn env s a ti d c).failsWithEnvironmentError = true ∧
      (convert_sklearn env s a ti d c).store = s := by
    intro c
    constructor <;> simp [convert_sklearn, ht, CallResult.failsWithEnvironmentError]
  refine ⟨hsk cfg, ?_, ?_⟩
  · by_cases hl : env.lightgbm_installed
    · constructor <;> simp only [convert_lightgbm, if_pos hl]
      · exact (hsk cfg).1
      · exact (hsk cfg).2
    · constructor <;> simp [convert_lightgbm, hl, CallResult.failsWithEnvironmentError]
  · by_cases hx : env.xgboost_installed
    · cases hfc : (s.get a).features_count with
      | some n =>
        refine ⟨?_, ?_, ?_⟩
        · simp [convert_xgboost, hx, hfc, convert_sklearn, ht, isOkResult]
        · simp only [convert_xgboost, if_pos hx, hfc]
          exact (hsk _).2
        · intro _
          simp only [convert_xgboost, if_pos hx, hfc]
          exact (hsk _).1
      | none =>
        by_cases h2 : ti.is2dNdarray
        · have hn : ti ≠ NpValue.none := by
            intro he
            rw [he] at h2
            simp [NpValue.is2dNdarray] at h2
          refine ⟨?_, ?_, ?_⟩
          · simp [convert_xgboost, hx, hfc, hn, h2, convert_sklearn, ht, isOkResult]
          · simp only [convert_xgboost, if_pos hx, hfc, ne_eq, hn, not_false_iff,
              if_true, h2]
            exact (hsk _).2
          · intro _
            simp only [convert_xgboost, if_pos hx, hfc, ne_eq, hn, not_false_iff,
              if_true, h2]
            exact (hsk _).1
        · by_cases hn : ti = NpValue.none
          · refine ⟨?_, ?_, ?_⟩
            · simp [convert_xgboost, hx, hfc, hn, isOkResult]
            · simp [convert_xgboost, hx, hfc, hn]
            · intro hcase
              rcases hcase with hcase | hcase
              · exact absurd rfl hcase
              · exact absurd hcase (by simp [h2])
          · refine ⟨?_, ?_, ?_⟩
            · simp [convert_xgboost, hx, hfc, hn, h2, isOkResult]
            · simp [convert_xgboost, hx, hfc, hn, h2]
            · intro hcase
              rcases hcase with hcase | hcase
              · exact absurd rfl hcase
              · exact absurd hcase (by simp [h2])
    · refine ⟨?_, ?_, ?_⟩
      · simp [convert_xgboost, hx, isOkResult]
      · simp [convert_xgboost, hx]
      · intro _
        simp [convert_xgboost, hx, CallResult.failsWithEnvironmentError]

/-- Witness for the amended C6 at a concrete input. -/
theorem C6_witness :
    envNoTorch.torch_installed = false ∧
      (convert_sklearn envNoTorch storeB 0 NpValue.none Option.none
        []).failsWithEnvironmentError = true :=
  ⟨rfl,
   ((C6_no_parsing_without_torch envNoTorch storeB 0 NpValue.none Option.none []
     rfl).1).1⟩

/-- C7 fails as stated: `convert_xgboost` writes the inferred feature count
into the caller's `extra_config` dict, so an initially empty dict does not
hold exactly its pre-call entries afterwards. -/
theorem C7_counterexample :
    (convert_xgboost envAll storeB 0 (NpValue.ndarray [1, 7])
        Option.none []).extra_config = [("n_features", 7)] ∧
      ([("n_features", 7)] : ExtraConfig) ≠ ([] : ExtraConfig) :=
  ⟨rfl, by decide⟩

/-- C7 (amended): `convert_sklearn` and `convert_lightgbm` thread the
caller's `extra_config` through to the compiler unchanged and leave its
contents exactly as before the call; `convert_xgboost` performs the single
assignment `extra_config["n_features"] = ...` on the caller's dict and
leaves the value of every other key unchanged. -/
theorem C7_extra_config_threading (env : Env) (s : Store) (a : Addr)
    (ti : NpValue) (d : Device) (cfg : ExtraConfig) :
    (convert_sklearn env s a ti d cfg).extra_config = cfg ∧
      (convert_lightgbm env s a ti d cfg).extra_config = cfg ∧
      ∀ q, q ≠ "n_features" →
        dictGet (convert_xgboost env s a ti d cfg).extra_config q = dictGet cfg q := by
  refine ⟨convert_sklearn_extra_config env s a ti d cfg,
    convert_lightgbm_extra_config env s a ti d cfg, ?_⟩
  intro q hq
  rcases convert_xgboost_extra_config_cases env s a ti d cfg with h | ⟨v, h⟩
  · rw [h]
  · rw [h]
    exact dictGet_dictSet_ne cfg "n_features" q v hq

/-- Witness for the amended C7 at a concrete input: an unrelated key keeps
its value across `convert_xgboost`. -/
theorem C7_witness :
    dictGet (convert_xgboost envAll storeB 0 (NpValue.ndarray [1, 7]) Option.none
        [("batch_size", 64)]).extra_config "batch_size" =
      dictGet [("batch_size", 64)] "batch_size" :=
  (C7_extra_config_threading envAll storeB 0 (NpValue.ndarray [1, 7]) Option.none
    [("batch_size", 64)]).2.2 "batch_size" (by decide)

/-- C9: a conversion call returns the same outcome no matter which
conversion calls ran before it — starting from the initial module state,
running any prior call sequence and then a call on a model object of the
original heap gives exactly the outcome of running that call directly on
the initial state.  Each conversion depends only on its own arguments and
its own private copies, never on residual state of earlier calls. -/
theorem C9_no_residual_state (env : Env) (s0 : Store) (prior : List Call)
    (c : Call) (hc : c.modelAddr < s0.objs.length) :
    (step env (runCalls env (PyState.init s0) prior) c).1 =
      (step env (PyState.init s0) c).1 :=
  step_result_eq_of_reach env s0 (runCalls env (PyState.init s0) prior)
    (reach_run env s0 prior (PyState.init s0) (reach_init s0)) c hc

/-- Witness for C9 at a concrete input: a prior `convert_xgboost` call that
wrote into the shared default dict does not change the outcome of a
subsequent `convert_sklearn` call. -/
theorem C9_witness :
    (step envAll (runCalls envAll (PyState.init storeW)
        [Call.xgb 0 (NpValue.ndarray [1, 7]) Option.none Option.none])
        (Call.sk 1 NpValue.none Option.none Option.none)).1 =
      (step envAll (PyState.init storeW)
        (Call.sk 1 NpValue.none Option.none Option.none)).1 :=
  C9_no_residual_state envAll storeW
    [Call.xgb 0 (NpValue.ndarray [1, 7]) Option.none Option.none]
    (Call.sk 1 NpValue.none Option.none Option.none) (by decide)
